import Mathlib

/-!
Verification of the rk-vulkan-wsi-layer core against its specification.

The development shallowly embeds the C/C++ sources:
  * `src/util/wsialloc/wsialloc_helpers.c` (allocator core),
  * `src/util/wsialloc/wsialloc_dma_buf_heaps.c` and
    `src/util/wsialloc/wsialloc_ion.c` (kernel-heap adaptors),
  * `src/wsi/swapchain_base.cpp` (swapchain image-lifecycle engine).

Machine integers are modelled as `Nat`/`Int`, with `% 2 ^ w` written out where
the C code can wrap.  Pointers that may be null are modelled as `Option`;
dereferencing a null pointer is modelled by an `Option.none` outcome of the
whole call (undefined behaviour).  External collaborators (the kernel `ioctl`s,
malloc, the Vulkan device dispatch) are modelled as explicit parameters giving
the results those calls would return.

Declarations whose C definitions live in headers that are not part of the
sources (`wsialloc.h`, `format_table.h`, the drm/ion kernel headers) are
modelled from the spec and carry a doc comment saying so.
-/

/-- Error codes of the allocator, from `wsialloc_error` (values returned by the
sources under `src/util/wsialloc`). -/
inductive wsialloc_error where
  | NONE
  | INVALID
  | NOT_SUPPORTED
  | NO_RESOURCE
  deriving DecidableEq, Repr

/-- Modelled from the spec: `wsialloc.h` is not in the sources.  An
application-supplied candidate format: fourcc code, layout modifier and
per-format flags (spec section 4.B, "ordered sequence of candidate
`{fourcc, modifier, flags}`"). -/
structure wsialloc_format where
  fourcc : Nat
  modifier : Nat
  flags : Nat
  deriving DecidableEq, Repr

/-- Modelled from the spec: `format_table.h` is not in the sources.  A format
table record, "(fourcc, planes, [bpp_per_plane])" per spec section 4.A.  The
`bpp` list models the fixed-size per-plane bits-per-pixel array; reads are done
with `List.getD` because the C array always has `WSIALLOC_MAX_PLANES` slots. -/
structure fmt_spec where
  drm_format : Nat
  nr_planes : Nat
  bpp : List Nat
  deriving DecidableEq, Repr

/-- Modelled from the spec: drm header constant for the "linear" (row-major,
uncompressed) layout modifier. -/
def DRM_FORMAT_MOD_LINEAR : Nat := 0

/-- Modelled from the spec: drm header constant, the big-endian flag is the
top bit (bit 31) of a 32-bit fourcc. -/
def DRM_FORMAT_BIG_ENDIAN : Nat := 2 ^ 31

/-- Default alignment, `WSIALLOCP_MIN_ALIGN_SZ` in `wsialloc_helpers.c`. -/
def WSIALLOCP_MIN_ALIGN_SZ : Nat := 64

/-- Maximum image size allowed for each dimension, `MAX_IMAGE_SIZE` in
`wsialloc_helpers.c`. -/
def MAX_IMAGE_SIZE : Nat := 128000

/-- Modelled from the spec: `wsialloc.h` is not in the sources.  The
allocation request `wsialloc_allocate_info`.  The `formats` list stands for
the `formats` pointer together with `format_count` (a null or empty list is
the empty list).  The two allocation flags `PROTECTED` and `NO_MEMORY` are
modelled as the booleans `flag_protected` and `flag_no_memory`. -/
structure wsialloc_allocate_info where
  formats : List wsialloc_format
  width : Nat
  height : Nat
  flag_protected : Bool
  flag_no_memory : Bool
  deriving DecidableEq, Repr

/-- From `wsialloc_helpers.c`: pair of the application-supplied format and the
table-derived format specification. -/
structure wsialloc_format_descriptor where
  format : wsialloc_format
  format_spec : fmt_spec
  deriving DecidableEq, Repr

/-- `round_size_up_to_align` from `wsialloc_helpers.c`:
`(size + WSIALLOCP_MIN_ALIGN_SZ - 1) & ~(WSIALLOCP_MIN_ALIGN_SZ - 1)` over
`uint64_t`.  The complement of 63 over 64 bits is `2 ^ 64 - 64`; the
`% 2 ^ 64` models the wrap of the 64-bit addition. -/
def round_size_up_to_align (size : Nat) : Nat :=
  Nat.land ((size + WSIALLOCP_MIN_ALIGN_SZ - 1) % 2 ^ 64) (2 ^ 64 - WSIALLOCP_MIN_ALIGN_SZ)

/-- The per-plane loop of `calculate_format_properties`: for each plane,
`stride = round_size_up_to_align (width * (bpp[plane] / 8))`, the offset is
the running size, and the running size grows by `stride * height`.  Returns
(strides, offsets, total size).  `planes_left` counts down from `nr_planes`
and `idx` indexes the bpp array, mirroring the C `for` loop. -/
def calc_planes (width height : Nat) (bpp : List Nat) :
    Nat → Nat → Nat → (List Nat × List Nat × Nat)
  | 0, _, size => ([], [], size)
  | planes_left + 1, idx, size =>
    let plane_bytes_per_pixel := bpp.getD idx 0 / 8
    let stride := round_size_up_to_align (width * plane_bytes_per_pixel)
    let rest := calc_planes width height bpp planes_left (idx + 1) (size + stride * height)
    (stride :: rest.1, size :: rest.2.1, rest.2.2)

/-- `calculate_format_properties` from `wsialloc_helpers.c`: reject non-linear
modifiers and plane counts above one, otherwise compute the per-plane strides,
offsets and the total size. -/
def calculate_format_properties (descriptor : wsialloc_format_descriptor)
    (info : wsialloc_allocate_info) :
    Except wsialloc_error (List Nat × List Nat × Nat) :=
  if descriptor.format.modifier ≠ DRM_FORMAT_MOD_LINEAR then
    Except.error wsialloc_error.NOT_SUPPORTED
  else if 1 < descriptor.format_spec.nr_planes then
    Except.error wsialloc_error.NOT_SUPPORTED
  else
    Except.ok (calc_planes info.width info.height descriptor.format_spec.bpp
      descriptor.format_spec.nr_planes 0 0)

/-- `find_format` from `wsialloc_helpers.c`: mask off the big-endian bit
(`fourcc & ~(uint32_t)DRM_FORMAT_BIG_ENDIAN`, i.e. keep the low 31 bits) and
linearly search the format table for the first matching record. -/
def find_format (table : List fmt_spec) (fourcc : Nat) : Option fmt_spec :=
  let masked := Nat.land fourcc (2 ^ 31 - 1)
  table.find? (fun f => f.drm_format == masked)

/- ### Auxiliary arithmetic facts about the alignment computation -/

/-- Clearing the low six bits of a 64-bit value rounds it down to a multiple
of 64: for `a < 2 ^ 64`, `a &&& (2 ^ 64 - 64) = 64 * (a / 64)`. -/
theorem land_clear_low_bits (a : Nat) (ha : a < 2 ^ 64) :
    Nat.land a (2 ^ 64 - 64) = 64 * (a / 64) := by
  have hmask : (2 ^ 64 - 64 : Nat) = (2 ^ 64 - 1) ^^^ (2 ^ 6 - 1) := by decide
  have hR : 64 * (a / 64) = (a >>> 6) <<< 6 := by
    rw [Nat.shiftRight_eq_div_pow, Nat.shiftLeft_eq]
    norm_num [Nat.mul_comm]
  rw [hmask, hR]
  show (a &&& ((2 : Nat) ^ 64 - 1 ^^^ 2 ^ 6 - 1)) = a >>> 6 <<< 6
  apply Nat.eq_of_testBit_eq
  intro i
  rw [Nat.testBit_land, Nat.testBit_xor, Nat.testBit_two_pow_sub_one,
    Nat.testBit_two_pow_sub_one, Nat.testBit_shiftLeft, Nat.testBit_shiftRight]
  rcases Nat.lt_or_ge i 6 with h6 | h6
  · have h64 : i < 64 := by omega
    simp [h6, h64, Nat.not_le.mpr h6]
  · rcases Nat.lt_or_ge i 64 with h64 | h64
    · have : 6 + (i - 6) = i := by omega
      simp [Nat.not_lt.mpr h6, h64, h6, this]
    · have hbit : a.testBit i = false :=
        Nat.testBit_lt_two_pow (Nat.lt_of_lt_of_le ha (Nat.pow_le_pow_right (by norm_num) h64))
      have : 6 + (i - 6) = i := by omega
      simp [Nat.not_lt.mpr h6, Nat.not_lt.mpr h64, h6, this, hbit]

/-- For sizes that do not wrap the 64-bit addition, `round_size_up_to_align`
is rounding up to the next multiple of 64. -/
theorem round_size_up_to_align_eq (size : Nat) (h : size + 63 < 2 ^ 64) :
    round_size_up_to_align size = 64 * ((size + 63) / 64) := by
  unfold round_size_up_to_align WSIALLOCP_MIN_ALIGN_SZ
  have h1 : size + 64 - 1 = size + 63 := by omega
  rw [h1, Nat.mod_eq_of_lt h, land_clear_low_bits _ h]

theorem round_size_up_to_align_dvd (size : Nat) (h : size + 63 < 2 ^ 64) :
    round_size_up_to_align size % 64 = 0 := by
  rw [round_size_up_to_align_eq size h]
  omega

theorem round_size_up_to_align_ge (size : Nat) (h : size + 63 < 2 ^ 64) :
    size ≤ round_size_up_to_align size := by
  rw [round_size_up_to_align_eq size h]
  omega

/-- Claim C1: for every allocation request accepted by the allocator (a
candidate with one plane and linear modifier, dimensions in `[1, 128000]`),
`calculate_format_properties` returns a single plane with
`stride = round_up (width * (bpp / 8), 64)`, `offset = 0` and
`total_size = stride * height`; moreover the stride is a multiple of 64 and
at least `width * bytes_per_pixel`. -/
theorem calculate_format_properties_single_plane
    (d : wsialloc_format_descriptor) (info : wsialloc_allocate_info)
    (hmod : d.format.modifier = DRM_FORMAT_MOD_LINEAR)
    (hpl : d.format_spec.nr_planes = 1)
    (hbpp : d.format_spec.bpp.getD 0 0 ≤ 255)
    (hw1 : 1 ≤ info.width) (hw2 : info.width ≤ MAX_IMAGE_SIZE)
    (hh1 : 1 ≤ info.height) (hh2 : info.height ≤ MAX_IMAGE_SIZE) :
    calculate_format_properties d info =
      Except.ok ([round_size_up_to_align (info.width * (d.format_spec.bpp.getD 0 0 / 8))],
        [0],
        round_size_up_to_align (info.width * (d.format_spec.bpp.getD 0 0 / 8)) * info.height) ∧
    round_size_up_to_align (info.width * (d.format_spec.bpp.getD 0 0 / 8)) % 64 = 0 ∧
    info.width * (d.format_spec.bpp.getD 0 0 / 8) ≤
      round_size_up_to_align (info.width * (d.format_spec.bpp.getD 0 0 / 8)) := by
  have hbound : info.width * (d.format_spec.bpp.getD 0 0 / 8) + 63 < 2 ^ 64 := by
    have : info.width * (d.format_spec.bpp.getD 0 0 / 8) ≤ 128000 * 31 := by
      apply Nat.mul_le_mul
      · exact hw2
      · omega
    omega
  refine ⟨?_, round_size_up_to_align_dvd _ hbound, round_size_up_to_align_ge _ hbound⟩
  unfold calculate_format_properties
  rw [hmod, hpl]
  simp [calc_planes]

/-- Witness for C1: the spec's S4 scenario, an XR24-like single-plane 32-bpp
format at 1920 by 1080. -/
theorem calculate_format_properties_single_plane_witness :
    (({ format := { fourcc := 875713112, modifier := 0, flags := 0 },
        format_spec := { drm_format := 875713112, nr_planes := 1, bpp := [32] } } :
          wsialloc_format_descriptor).format.modifier = DRM_FORMAT_MOD_LINEAR) ∧
    calculate_format_properties
      { format := { fourcc := 875713112, modifier := 0, flags := 0 },
        format_spec := { drm_format := 875713112, nr_planes := 1, bpp := [32] } }
      { formats := [{ fourcc := 875713112, modifier := 0, flags := 0 }],
        width := 1920, height := 1080, flag_protected := false, flag_no_memory := false } =
      Except.ok ([7680], [0], 8294400) := by
  constructor
  · rfl
  · have h := calculate_format_properties_single_plane
      { format := { fourcc := 875713112, modifier := 0, flags := 0 },
        format_spec := { drm_format := 875713112, nr_planes := 1, bpp := [32] } }
      { formats := [{ fourcc := 875713112, modifier := 0, flags := 0 }],
        width := 1920, height := 1080, flag_protected := false, flag_no_memory := false }
      rfl rfl (by decide) (by decide) (by decide) (by decide) (by decide)
    have hval : round_size_up_to_align (1920 * (32 / 8)) = 7680 := by
      rw [round_size_up_to_align_eq _ (by decide)]
    simpa [hval] using h.1

/- ### The allocator entry point `wsiallocp_alloc` -/

/-- `validate_parameters` from `wsialloc_helpers.c`.  The checks run in source
order: a null `allocator`, then a null `result`, then the format list, then
the dimensions.  The `info` pointer is dereferenced without a null check, so a
null `info` that reaches the dereference yields `Option.none` (undefined
behaviour) instead of a boolean. -/
def validate_parameters (allocator_nonnull : Bool)
    (info : Option wsialloc_allocate_info) (result_nonnull : Bool) : Option Bool :=
  if allocator_nonnull = false then Option.some false
  else if result_nonnull = false then Option.some false
  else
    match info with
    | Option.none => Option.none
    | Option.some i =>
      if i.formats.length = 0 then Option.some false
      else if i.width < 1 ∨ i.height < 1 ∨ MAX_IMAGE_SIZE < i.width ∨ MAX_IMAGE_SIZE < i.height then
        Option.some false
      else Option.some true

/-- The zero-initialised `wsialloc_format_descriptor` (`= {}` in the C source),
read only when the candidate walk ends without a selection. -/
def zero_descriptor : wsialloc_format_descriptor :=
  { format := { fourcc := 0, modifier := 0, flags := 0 },
    format_spec := { drm_format := 0, nr_planes := 0, bpp := [] } }

/-- Result of the candidate walk in `wsiallocp_alloc`: the last error, the
selected descriptor and the per-plane locals written by the successful
`calculate_format_properties` call. -/
structure select_result where
  err : wsialloc_error
  desc : wsialloc_format_descriptor
  strides : List Nat
  offsets : List Nat
  total_size : Nat
  deriving DecidableEq, Repr

/-- The candidate walk of `wsiallocp_alloc` (`for` loop over `info->formats`):
an unresolved fourcc keeps the last error `NOT_SUPPORTED` and continues; a
failing `calculate_format_properties` keeps its error and continues; the first
success stops the walk with error `NONE`. -/
def select_loop (table : List fmt_spec) (info : wsialloc_allocate_info) :
    List wsialloc_format → wsialloc_error → select_result
  | [], err => ⟨err, zero_descriptor, [], [], 0⟩
  | current :: rest, _ =>
    match find_format table current.fourcc with
    | Option.none => select_loop table info rest wsialloc_error.NOT_SUPPORTED
    | Option.some spec =>
      match calculate_format_properties ⟨current, spec⟩ info with
      | Except.error e => select_loop table info rest e
      | Except.ok (strides, offsets, total) =>
        ⟨wsialloc_error.NONE, ⟨current, spec⟩, strides, offsets, total⟩

/-- Modelled from the spec: `wsialloc.h` is not in the sources.  The fields of
`wsialloc_allocate_result` that `wsiallocp_alloc` writes.  `buffer_fds` is
`Option.none` when the FD slots are left untouched (the `NO_MEMORY` path). -/
structure wsialloc_allocate_result where
  format : wsialloc_format
  average_row_strides : List Nat
  offsets : List Nat
  buffer_fds : Option (List Int)
  is_disjoint : Bool
  deriving DecidableEq, Repr

/-- Observable outcome of one `wsiallocp_alloc` call: the returned error,
whether the kernel-heap callback `fn_alloc` was invoked, and the writes (if
any) performed on `*result`. -/
structure alloc_outcome where
  err : wsialloc_error
  alloc_called : Bool
  written : Option wsialloc_allocate_result
  deriving DecidableEq, Repr

/-- The part of `wsiallocp_alloc` after parameter validation: run the
candidate walk, then either allocate one FD through the callback (duplicating
it across the plane slots) or, under `NO_MEMORY`, skip allocation; on success
populate the result fields. -/
def wsiallocp_alloc_body (table : List fmt_spec) (fn_alloc : Nat → Int)
    (i : wsialloc_allocate_info) : alloc_outcome :=
  let sel := select_loop table i i.formats wsialloc_error.NONE
  if sel.err ≠ wsialloc_error.NONE then
    ⟨sel.err, false, Option.none⟩
  else if i.flag_no_memory = false then
    let fd := fn_alloc sel.total_size
    if fd < 0 then ⟨wsialloc_error.NO_RESOURCE, true, Option.none⟩
    else
      ⟨wsialloc_error.NONE, true, Option.some
        { format := sel.desc.format,
          average_row_strides := sel.strides.take sel.desc.format_spec.nr_planes,
          offsets := sel.offsets.take sel.desc.format_spec.nr_planes,
          buffer_fds := Option.some (fd :: List.replicate (sel.desc.format_spec.nr_planes - 1) fd),
          is_disjoint := false }⟩
  else
    ⟨wsialloc_error.NONE, false, Option.some
      { format := sel.desc.format,
        average_row_strides := sel.strides.take sel.desc.format_spec.nr_planes,
        offsets := sel.offsets.take sel.desc.format_spec.nr_planes,
        buffer_fds := Option.none,
        is_disjoint := false }⟩

/-- `wsiallocp_alloc` from `wsialloc_helpers.c`.  `fn_alloc` models the
kernel-heap callback: it maps the requested total size to the returned file
descriptor (negative means failure).  The outer `Option` is `Option.none` when
the call runs into undefined behaviour (null `info` dereference). -/
def wsiallocp_alloc (table : List fmt_spec) (fn_alloc : Nat → Int)
    (allocator_nonnull : Bool) (info : Option wsialloc_allocate_info)
    (result_nonnull : Bool) : Option alloc_outcome :=
  match validate_parameters allocator_nonnull info result_nonnull with
  | Option.none => Option.none
  | Option.some false => Option.some ⟨wsialloc_error.INVALID, false, Option.none⟩
  | Option.some true =>
    match info with
    | Option.none => Option.none
    | Option.some i => Option.some (wsiallocp_alloc_body table fn_alloc i)

/-- A candidate is acceptable when its fourcc resolves in the table and the
resolved record has one plane and the linear modifier. -/
def acceptable (table : List fmt_spec) (f : wsialloc_format) : Bool :=
  match find_format table f.fourcc with
  | Option.some spec =>
    decide (f.modifier = DRM_FORMAT_MOD_LINEAR) && decide (spec.nr_planes = 1)
  | Option.none => false

theorem find_format_mem (table : List fmt_spec) (c : Nat) (s : fmt_spec)
    (h : find_format table c = Option.some s) : s ∈ table := by
  unfold find_format at h
  exact List.mem_of_find?_eq_some h

/-- The candidate walk stops at the first acceptable candidate (assuming every
table record has at least one plane) and records the single-plane stride,
offset and total size for it. -/
theorem select_loop_first_acceptable (table : List fmt_spec)
    (info : wsialloc_allocate_info) (htable : ∀ s ∈ table, 1 ≤ s.nr_planes) :
    ∀ (l : List wsialloc_format) (e : wsialloc_error) (f : wsialloc_format),
      l.find? (acceptable table) = Option.some f →
      ∃ spec, find_format table f.fourcc = Option.some spec ∧ spec.nr_planes = 1 ∧
        select_loop table info l e =
          ⟨wsialloc_error.NONE, ⟨f, spec⟩,
            [round_size_up_to_align (info.width * (spec.bpp.getD 0 0 / 8))], [0],
            round_size_up_to_align (info.width * (spec.bpp.getD 0 0 / 8)) * info.height⟩ := by
  intro l
  induction l with
  | nil => intro e f h; simp at h
  | cons c rest ih =>
    intro e f h
    by_cases hc : acceptable table c
    · rw [List.find?_cons_of_pos _ hc] at h
      injection h with h
      subst h
      unfold acceptable at hc
      cases hfind : find_format table c.fourcc with
      | none => rw [hfind] at hc; simp at hc
      | some spec =>
        rw [hfind] at hc
        simp only [Bool.and_eq_true, decide_eq_true_eq] at hc
        obtain ⟨hmod, hpl⟩ := hc
        refine ⟨spec, rfl, hpl, ?_⟩
        simp only [select_loop, hfind]
        have hcalc : calculate_format_properties ⟨c, spec⟩ info =
            Except.ok ([round_size_up_to_align (info.width * (spec.bpp.getD 0 0 / 8))], [0],
              round_size_up_to_align (info.width * (spec.bpp.getD 0 0 / 8)) * info.height) := by
          unfold calculate_format_properties
          simp only [hmod, hpl]
          simp [calc_planes]
        rw [hcalc]
    · rw [List.find?_cons_of_neg _ hc] at h
      cases hfind : find_format table c.fourcc with
      | none =>
        simpa only [select_loop, hfind] using ih wsialloc_error.NOT_SUPPORTED f h
      | some spec =>
        unfold acceptable at hc
        rw [hfind] at hc
        simp only [Bool.and_eq_true, decide_eq_true_eq, not_and_or] at hc
        have hplanes : 1 ≤ spec.nr_planes := htable spec (find_format_mem table c.fourcc spec hfind)
        have hcalc : ∃ e2, calculate_format_properties ⟨c, spec⟩ info = Except.error e2 := by
          unfold calculate_format_properties
          rcases hc with hmod | hpl
          · simp [hmod]
          · have : 1 < spec.nr_planes := by omega
            by_cases hmod2 : c.modifier = DRM_FORMAT_MOD_LINEAR <;> simp [hmod2, this]
        obtain ⟨e2, hcalc⟩ := hcalc
        simpa only [select_loop, hfind, hcalc] using ih e2 f h

theorem validate_parameters_passes (i : wsialloc_allocate_info)
    (hne : i.formats.length ≠ 0)
    (hw1 : 1 ≤ i.width) (hw2 : i.width ≤ MAX_IMAGE_SIZE)
    (hh1 : 1 ≤ i.height) (hh2 : i.height ≤ MAX_IMAGE_SIZE) :
    validate_parameters true (Option.some i) true = Option.some true := by
  have hw2a : i.width ≤ 128000 := hw2
  have hh2a : i.height ≤ 128000 := hh2
  unfold validate_parameters MAX_IMAGE_SIZE
  simp [hne]
  omega

theorem wsiallocp_alloc_eq_body (table : List fmt_spec) (fn_alloc : Nat → Int)
    (an rn : Bool) (i : wsialloc_allocate_info)
    (hval : validate_parameters an (Option.some i) rn = Option.some true) :
    wsiallocp_alloc table fn_alloc an (Option.some i) rn =
      Option.some (wsiallocp_alloc_body table fn_alloc i) := by
  unfold wsiallocp_alloc
  rw [hval]

/-- Claim C2: for every valid request whose format list has an acceptable
candidate (one that resolves in the table with one plane and the linear
modifier), `wsiallocp_alloc` selects the first acceptable candidate in list
order and it becomes `result->format`.  The table hypothesis says every
record has at least one plane; the `fn_alloc` hypothesis says the kernel-heap
callback does not fail (it is not reached at all under `NO_MEMORY`). -/
theorem wsiallocp_alloc_selects_first_acceptable (table : List fmt_spec)
    (fn_alloc : Nat → Int) (i : wsialloc_allocate_info) (f : wsialloc_format)
    (htable : ∀ s ∈ table, 1 ≤ s.nr_planes)
    (hfind : i.formats.find? (acceptable table) = Option.some f)
    (hw1 : 1 ≤ i.width) (hw2 : i.width ≤ MAX_IMAGE_SIZE)
    (hh1 : 1 ≤ i.height) (hh2 : i.height ≤ MAX_IMAGE_SIZE)
    (halloc : ∀ s, 0 ≤ fn_alloc s) :
    ∃ o, wsiallocp_alloc table fn_alloc true (Option.some i) true = Option.some o ∧
      o.err = wsialloc_error.NONE ∧
      ∃ r, o.written = Option.some r ∧ r.format = f := by
  obtain ⟨spec, hspec, hpl, hsel⟩ :=
    select_loop_first_acceptable table i htable i.formats wsialloc_error.NONE f hfind
  have hne : i.formats.length ≠ 0 := by
    intro h0
    rw [List.length_eq_zero] at h0
    rw [h0] at hfind
    simp at hfind
  rw [wsiallocp_alloc_eq_body table fn_alloc true true i
    (validate_parameters_passes i hne hw1 hw2 hh1 hh2)]
  refine ⟨wsiallocp_alloc_body table fn_alloc i, rfl, ?_⟩
  unfold wsiallocp_alloc_body
  rw [hsel]
  set st := round_size_up_to_align (i.width * (spec.bpp.getD 0 0 / 8)) with hst
  cases hnm : i.flag_no_memory with
  | false =>
    have hfd : ¬ fn_alloc (st * i.height) < 0 := Int.not_lt.mpr (halloc _)
    simp [hfd]
  | true => simp

/-- Witness for C2: a two-element candidate list whose first entry does not
resolve in the table and whose second is single-plane linear; the second is
selected. -/
theorem wsiallocp_alloc_selects_first_acceptable_witness :
    ∃ o, wsiallocp_alloc [{ drm_format := 2, nr_planes := 1, bpp := [32] }]
        (fun _ => 7) true
        (Option.some { formats := [{ fourcc := 99, modifier := 0, flags := 0 },
                                   { fourcc := 2, modifier := 0, flags := 0 }],
                       width := 1920, height := 1080,
                       flag_protected := false, flag_no_memory := false }) true =
      Option.some o ∧
    o.err = wsialloc_error.NONE ∧
    ∃ r, o.written = Option.some r ∧
      r.format = { fourcc := 2, modifier := 0, flags := 0 } := by
  exact wsiallocp_alloc_selects_first_acceptable
    [{ drm_format := 2, nr_planes := 1, bpp := [32] }] (fun _ => 7)
    { formats := [{ fourcc := 99, modifier := 0, flags := 0 },
                  { fourcc := 2, modifier := 0, flags := 0 }],
      width := 1920, height := 1080, flag_protected := false, flag_no_memory := false }
    { fourcc := 2, modifier := 0, flags := 0 }
    (by decide) (by decide) (by decide) (by decide) (by decide) (by decide)
    (by intro s; show (0 : Int) ≤ 7; decide)

/-- Counterexample for C4: with a non-null allocator and result but a null
`info`, the code dereferences `info->format_count` without a null check; the
call does not return `INVALID` (the embedding yields the undefined-behaviour
outcome `Option.none`). -/
theorem wsiallocp_alloc_null_info_not_invalid :
    wsiallocp_alloc [] (fun _ => 0) true Option.none true = Option.none ∧
    wsiallocp_alloc [] (fun _ => 0) true Option.none true ≠
      Option.some { err := wsialloc_error.INVALID, alloc_called := false,
                    written := Option.none } := by
  exact ⟨rfl, by decide⟩

/-- Claim C4 (amended): for every allocation request that violates a contract
condition the code actually checks — null allocator, null result, empty format
list, or width or height outside `[1, 128000]` — `wsiallocp_alloc` returns
`INVALID` without invoking the kernel-heap callback.  (The code never checks
`info` itself for null; a null `info` is dereferenced.) -/
theorem wsiallocp_alloc_invalid_on_contract_violation (table : List fmt_spec)
    (fn_alloc : Nat → Int) (an rn : Bool) (info : Option wsialloc_allocate_info)
    (hviol : an = false ∨ rn = false ∨
      ∃ i, info = Option.some i ∧ (i.formats.length = 0 ∨ i.width < 1 ∨ i.height < 1 ∨
        MAX_IMAGE_SIZE < i.width ∨ MAX_IMAGE_SIZE < i.height)) :
    wsiallocp_alloc table fn_alloc an info rn =
      Option.some { err := wsialloc_error.INVALID, alloc_called := false,
                    written := Option.none } := by
  have hval : validate_parameters an info rn = Option.some false := by
    rcases hviol with h | h | ⟨i, rfl, h⟩
    · subst h; rfl
    · subst h
      cases an <;> rfl
    · cases an with
      | false => rfl
      | true =>
        cases rn with
        | false => rfl
        | true =>
          show (if i.formats.length = 0 then Option.some false
            else if i.width < 1 ∨ i.height < 1 ∨ MAX_IMAGE_SIZE < i.width ∨
              MAX_IMAGE_SIZE < i.height then Option.some false
            else Option.some true) = Option.some false
          rcases h with h | h
          · rw [if_pos h]
          · by_cases hlen : i.formats.length = 0
            · rw [if_pos hlen]
            · rw [if_neg hlen, if_pos h]
  unfold wsiallocp_alloc
  rw [hval]

/-- Witness for C4 (amended): an empty format list yields `INVALID` and the
callback is not invoked. -/
theorem wsiallocp_alloc_invalid_on_contract_violation_witness :
    wsiallocp_alloc [] (fun _ => 3) true
        (Option.some { formats := [], width := 5, height := 5,
                       flag_protected := false, flag_no_memory := false }) true =
      Option.some { err := wsialloc_error.INVALID, alloc_called := false,
                    written := Option.none } := by
  exact wsiallocp_alloc_invalid_on_contract_violation [] (fun _ => 3) true true
    (Option.some { formats := [], width := 5, height := 5,
                   flag_protected := false, flag_no_memory := false })
    (Or.inr (Or.inr ⟨_, rfl, Or.inl rfl⟩))

/-- Claim C7: with the `NO_MEMORY` flag set and an acceptable candidate, the
call returns `NONE` without invoking the kernel-heap callback and without
writing any buffer FD, while still populating the selected format, the
per-plane stride, the per-plane offset, and `is_disjoint = false`. -/
theorem wsiallocp_alloc_no_memory_flag (table : List fmt_spec)
    (fn_alloc : Nat → Int) (i : wsialloc_allocate_info) (f : wsialloc_format)
    (htable : ∀ s ∈ table, 1 ≤ s.nr_planes)
    (hfind : i.formats.find? (acceptable table) = Option.some f)
    (hw1 : 1 ≤ i.width) (hw2 : i.width ≤ MAX_IMAGE_SIZE)
    (hh1 : 1 ≤ i.height) (hh2 : i.height ≤ MAX_IMAGE_SIZE)
    (hnm : i.flag_no_memory = true) :
    ∃ o, wsiallocp_alloc table fn_alloc true (Option.some i) true = Option.some o ∧
      o.err = wsialloc_error.NONE ∧ o.alloc_called = false ∧
      ∃ r, o.written = Option.some r ∧ r.format = f ∧ r.buffer_fds = Option.none ∧
        r.is_disjoint = false ∧ r.average_row_strides.length = 1 ∧ r.offsets = [0] := by
  obtain ⟨spec, hspec, hpl, hsel⟩ :=
    select_loop_first_acceptable table i htable i.formats wsialloc_error.NONE f hfind
  have hne : i.formats.length ≠ 0 := by
    intro h0
    rw [List.length_eq_zero] at h0
    rw [h0] at hfind
    simp at hfind
  rw [wsiallocp_alloc_eq_body table fn_alloc true true i
    (validate_parameters_passes i hne hw1 hw2 hh1 hh2)]
  refine ⟨wsiallocp_alloc_body table fn_alloc i, rfl, ?_⟩
  unfold wsiallocp_alloc_body
  rw [hsel]
  simp [hnm, hpl]

/-- Witness for C7: an acceptable single-plane linear candidate with
`NO_MEMORY` set; metadata is produced, no FD is written. -/
theorem wsiallocp_alloc_no_memory_flag_witness :
    ∃ o, wsiallocp_alloc [{ drm_format := 2, nr_planes := 1, bpp := [32] }]
        (fun _ => 7) true
        (Option.some { formats := [{ fourcc := 2, modifier := 0, flags := 0 }],
                       width := 640, height := 480,
                       flag_protected := false, flag_no_memory := true }) true =
      Option.some o ∧
    o.err = wsialloc_error.NONE ∧ o.alloc_called = false ∧
    ∃ r, o.written = Option.some r ∧
      r.format = { fourcc := 2, modifier := 0, flags := 0 } ∧
      r.buffer_fds = Option.none ∧ r.is_disjoint = false ∧
      r.average_row_strides.length = 1 ∧ r.offsets = [0] := by
  exact wsiallocp_alloc_no_memory_flag
    [{ drm_format := 2, nr_planes := 1, bpp := [32] }] (fun _ => 7)
    { formats := [{ fourcc := 2, modifier := 0, flags := 0 }],
      width := 640, height := 480, flag_protected := false, flag_no_memory := true }
    { fourcc := 2, modifier := 0, flags := 0 }
    (by decide) (by decide) (by decide) (by decide) (by decide) (by decide) (by decide)

/- ### Kernel-heap adaptors: DMA-BUF heaps and ION -/

/-- The `wsialloc_allocator` of `wsialloc_dma_buf_heaps.c`: the memory heap FD
and the (possibly absent, i.e. negative) protected heap FD. -/
structure dma_buf_heaps_allocator where
  memory_fd : Int
  protected_fd : Int
  deriving DecidableEq, Repr

/-- `wsialloc_alloc` from `wsialloc_dma_buf_heaps.c`: pick the protected heap
FD when the `PROTECTED` flag is set, fail with `NO_RESOURCE` when that FD is
negative, otherwise delegate to `wsiallocp_alloc` with the `dma_allocate`
callback (modelled by `kernel_alloc`). -/
def dma_wsialloc_alloc (a : dma_buf_heaps_allocator) (table : List fmt_spec)
    (kernel_alloc : Nat → Int) (i : wsialloc_allocate_info)
    (result_nonnull : Bool) : Option alloc_outcome :=
  let fd_to_use := if i.flag_protected then a.protected_fd else a.memory_fd
  if fd_to_use < 0 then
    Option.some ⟨wsialloc_error.NO_RESOURCE, false, Option.none⟩
  else wsiallocp_alloc table kernel_alloc true (Option.some i) result_nonnull

/-- The `wsialloc_allocator` of `wsialloc_ion.c`: `/dev/ion` FD, the unsigned
allocation heap id (`uint32_t`, modelled as `Nat`), the protected heap id and
its presence flag. -/
structure ion_allocator where
  fd : Int
  alloc_heap_id : Nat
  protected_alloc_heap_id : Nat
  protected_heap_exists : Bool
  deriving DecidableEq, Repr

/-- `wsialloc_alloc` from `wsialloc_ion.c`: a `PROTECTED` request on an
adaptor without a protected heap fails with `NO_RESOURCE` before any
allocation; otherwise delegate to `wsiallocp_alloc` with the `ion_allocate`
callback (modelled by `kernel_alloc`). -/
def ion_wsialloc_alloc (a : ion_allocator) (table : List fmt_spec)
    (kernel_alloc : Nat → Int) (i : wsialloc_allocate_info)
    (result_nonnull : Bool) : Option alloc_outcome :=
  if i.flag_protected = true ∧ a.protected_heap_exists = false then
    Option.some ⟨wsialloc_error.NO_RESOURCE, false, Option.none⟩
  else wsiallocp_alloc table kernel_alloc true (Option.some i) result_nonnull

/-- Claim C8: a `PROTECTED` allocation request on an adaptor whose protected
heap handle is absent (negative `protected_fd` for the DMA-BUF-heap variant,
`protected_heap_exists == false` for the ION variant) returns `NO_RESOURCE`
without performing any kernel allocation. -/
theorem wsialloc_alloc_protected_without_heap
    (a : dma_buf_heaps_allocator) (b : ion_allocator) (table : List fmt_spec)
    (kernel_alloc : Nat → Int) (i : wsialloc_allocate_info) (rn : Bool)
    (hprot : i.flag_protected = true)
    (hdma : a.protected_fd < 0)
    (hion : b.protected_heap_exists = false) :
    dma_wsialloc_alloc a table kernel_alloc i rn =
      Option.some ⟨wsialloc_error.NO_RESOURCE, false, Option.none⟩ ∧
    ion_wsialloc_alloc b table kernel_alloc i rn =
      Option.some ⟨wsialloc_error.NO_RESOURCE, false, Option.none⟩ := by
  constructor
  · unfold dma_wsialloc_alloc
    simp [hprot, hdma]
  · unfold ion_wsialloc_alloc
    simp [hprot, hion]

/-- Witness for C8: a concrete adaptor pair without protected heaps and a
protected request. -/
theorem wsialloc_alloc_protected_without_heap_witness :
    dma_wsialloc_alloc { memory_fd := 4, protected_fd := -1 } []
        (fun _ => 9)
        { formats := [{ fourcc := 2, modifier := 0, flags := 0 }],
          width := 64, height := 64, flag_protected := true, flag_no_memory := false }
        true =
      Option.some ⟨wsialloc_error.NO_RESOURCE, false, Option.none⟩ ∧
    ion_wsialloc_alloc
        { fd := 5, alloc_heap_id := 0, protected_alloc_heap_id := 0,
          protected_heap_exists := false } []
        (fun _ => 9)
        { formats := [{ fourcc := 2, modifier := 0, flags := 0 }],
          width := 64, height := 64, flag_protected := true, flag_no_memory := false }
        true =
      Option.some ⟨wsialloc_error.NO_RESOURCE, false, Option.none⟩ := by
  exact wsialloc_alloc_protected_without_heap
    { memory_fd := 4, protected_fd := -1 }
    { fd := 5, alloc_heap_id := 0, protected_alloc_heap_id := 0,
      protected_heap_exists := false } [] (fun _ => 9)
    { formats := [{ fourcc := 2, modifier := 0, flags := 0 }],
      width := 64, height := 64, flag_protected := true, flag_no_memory := false }
    true rfl (by decide) rfl

/- ### `wsialloc_new` of the ION back-end -/

/-- Modelled from the spec: `ion.h` is not in the sources.  One record of the
kernel heap query: the heap type and the heap id. -/
structure ion_heap_data where
  heap_type : Nat
  heap_id : Nat
  deriving DecidableEq, Repr

/-- Modelled from the spec: kernel UAPI constant for the DMA heap type tested
by `find_alloc_heap_id`. -/
def ION_HEAP_TYPE_DMA : Nat := 2

/-- `find_alloc_heap_id` from `wsialloc_ion.c`: if the `ION_IOC_HEAP_QUERY`
ioctl fails (negative return, modelled by `ioctl_ret`), return that error;
otherwise scan the reported heaps in order and return the id of the first
DMA-type heap, or `-1` when none exists.  The return type is `int`. -/
def find_alloc_heap_id (ioctl_ret : Int) (heaps : List ion_heap_data) : Int :=
  if ioctl_ret < 0 then ioctl_ret
  else
    match heaps.find? (fun h => h.heap_type == ION_HEAP_TYPE_DMA) with
    | Option.some h => (h.heap_id : Int)
    | Option.none => -1

/-- The C conversion from `int` to `uint32_t`: reduce modulo `2 ^ 32`. -/
def u32_of_int (x : Int) : Nat := (x % 2 ^ 32).toNat

/-- Outcome of `wsialloc_new` on the ION back-end: the returned error and the
constructed allocator state, if any. -/
structure ion_new_outcome where
  err : wsialloc_error
  state : Option ion_allocator
  deriving DecidableEq, Repr

/-- `wsialloc_new` from `wsialloc_ion.c`.  External effects are parameters:
`malloc_ok` models the `malloc` result, `open_ret` the FD from
`open("/dev/ion")`, and `ioctl_ret`/`heaps` the heap-query ioctl.  The `int`
result of `find_alloc_heap_id` is stored into the `uint32_t` field
`alloc_heap_id`; the subsequent `if (ion->alloc_heap_id < 0)` compares that
unsigned value against zero. -/
def ion_wsialloc_new (malloc_ok : Bool) (open_ret : Int) (ioctl_ret : Int)
    (heaps : List ion_heap_data) : ion_new_outcome :=
  if malloc_ok = false then ⟨wsialloc_error.NO_RESOURCE, Option.none⟩
  else if open_ret < 0 then ⟨wsialloc_error.NO_RESOURCE, Option.none⟩
  else
    let heap_id := u32_of_int (find_alloc_heap_id ioctl_ret heaps)
    if heap_id < 0 then ⟨wsialloc_error.NO_RESOURCE, Option.none⟩
    else
      ⟨wsialloc_error.NONE, Option.some
        { fd := open_ret, alloc_heap_id := heap_id,
          protected_alloc_heap_id := 0, protected_heap_exists := false }⟩

/-- Claim C10: `wsialloc_new` on the ION back-end stores the `int` result of
`find_alloc_heap_id` into the unsigned field `alloc_heap_id`, so the
`alloc_heap_id < 0` check is false for every possible value; once `malloc`
and `open` succeed the function returns `NONE` for every heap-query outcome,
including a failed query or a heap list with no DMA heap. -/
theorem ion_wsialloc_new_heap_lookup_ignored (open_ret ioctl_ret : Int)
    (heaps : List ion_heap_data) (hopen : 0 ≤ open_ret) :
    (ion_wsialloc_new true open_ret ioctl_ret heaps).err = wsialloc_error.NONE ∧
    (ion_wsialloc_new true open_ret ioctl_ret heaps).state = Option.some
      { fd := open_ret,
        alloc_heap_id := u32_of_int (find_alloc_heap_id ioctl_ret heaps),
        protected_alloc_heap_id := 0, protected_heap_exists := false } := by
  unfold ion_wsialloc_new
  have h1 : ¬ open_ret < 0 := Int.not_lt.mpr hopen
  have h2 : ¬ u32_of_int (find_alloc_heap_id ioctl_ret heaps) < 0 := Nat.not_lt_zero _
  simp [h1, h2]

/-- Witness for C10: `/dev/ion` opens as FD 3, the heap query succeeds but
reports no heap at all; `find_alloc_heap_id` returns `-1`, the stored unsigned
id is `2 ^ 32 - 1`, and `wsialloc_new` still reports `NONE`. -/
theorem ion_wsialloc_new_heap_lookup_ignored_witness :
    (ion_wsialloc_new true 3 0 []).err = wsialloc_error.NONE ∧
    (ion_wsialloc_new true 3 0 []).state = Option.some
      { fd := 3, alloc_heap_id := u32_of_int (find_alloc_heap_id 0 []),
        protected_alloc_heap_id := 0, protected_heap_exists := false } := by
  exact ion_wsialloc_new_heap_lookup_ignored 3 0 [] (by decide)

/- ### Swapchain base (`src/wsi/swapchain_base.cpp`) -/

/-- Image states from `swapchain_image` in the swapchain base. -/
inductive image_status where
  | INVALID
  | FREE
  | ACQUIRED
  | PENDING
  | PRESENTED
  deriving DecidableEq, Repr

/-- The Vulkan result codes the embedded swapchain functions return. -/
inductive VkResult where
  | VK_SUCCESS
  | VK_NOT_READY
  | VK_TIMEOUT
  | VK_INCOMPLETE
  | VK_ERROR_OUT_OF_HOST_MEMORY
  | VK_ERROR_INITIALIZATION_FAILED
  | VK_ERROR_OUT_OF_DATE_KHR
  | VK_ERROR_SURFACE_LOST_KHR
  deriving DecidableEq, Repr

/-- The `pending_buffer_pool` ring of the swapchain: a fixed-length ring
array of image indices with head, tail and size. -/
structure pending_ring where
  ring : List Nat
  head : Nat
  tail : Nat
  size : Nat
  deriving DecidableEq, Repr

/-- The swapchain state that `queue_present` reads and writes: the per-image
statuses, the pending ring and the number of posts performed on the page-flip
semaphore. -/
structure swapchain_state where
  images : List image_status
  pending : pending_ring
  page_flip_posts : Nat
  deriving DecidableEq, Repr

/-- The loop in `queue_present` (and in `teardown`) that detects whether the
descendant swapchain has an image in `PRESENTED` or `PENDING`;
`descendant_images` is `Option.none` when `m_descendant == VK_NULL_HANDLE`. -/
def descendant_started_presenting (descendant_images : Option (List image_status)) : Bool :=
  match descendant_images with
  | Option.none => false
  | Option.some imgs =>
    imgs.any (fun s => s == image_status.PRESENTED || s == image_status.PENDING)

/-- Appending an index to the pending ring, as `queue_present` does: write the
ring slot at `tail`, then advance `tail` modulo the ring size. -/
def ring_enqueue (r : pending_ring) (idx : Nat) : pending_ring :=
  { r with ring := r.ring.set r.tail idx, tail := (r.tail + 1) % r.size }

/-- `swapchain_base::queue_present` from `swapchain_base.cpp`.  The results of
the two device calls (`ResetFences`, `QueueSubmit`) are parameters; a failing
call returns its result without touching the swapchain state.  Otherwise the
image is enqueued on the pending ring and the page-flip semaphore is posted;
if the descendant had already started presenting at entry the image is marked
`FREE` and the call returns `OUT_OF_DATE_KHR`, else it is marked `PENDING`
and the call returns `SUCCESS`. -/
def queue_present (st : swapchain_state)
    (descendant_images : Option (List image_status))
    (reset_res submit_res : VkResult) (image_index : Nat) :
    VkResult × swapchain_state :=
  let descendant_took_over := descendant_started_presenting descendant_images
  if reset_res ≠ VkResult.VK_SUCCESS then (reset_res, st)
  else if submit_res ≠ VkResult.VK_SUCCESS then (submit_res, st)
  else if descendant_took_over then
    (VkResult.VK_ERROR_OUT_OF_DATE_KHR,
      { images := st.images.set image_index image_status.FREE,
        pending := ring_enqueue st.pending image_index,
        page_flip_posts := st.page_flip_posts + 1 })
  else
    (VkResult.VK_SUCCESS,
      { images := st.images.set image_index image_status.PENDING,
        pending := ring_enqueue st.pending image_index,
        page_flip_posts := st.page_flip_posts + 1 })

/-- Claim C3: a `queue_present` call on an `ACQUIRED` image (with the device
calls succeeding): when the descendant already has a `PRESENTED` or `PENDING`
image at entry, the image is marked `FREE` (not `PENDING`), its index is still
enqueued on the pending ring, the page-flip semaphore is posted and the call
returns `OUT_OF_DATE_KHR`; otherwise the image is marked `PENDING` and the
call returns `SUCCESS`. -/
theorem queue_present_descendant_takeover (st : swapchain_state)
    (descendant_images : Option (List image_status)) (image_index : Nat)
    (hacq : st.images.get? image_index = Option.some image_status.ACQUIRED) :
    (descendant_started_presenting descendant_images = true →
      (queue_present st descendant_images VkResult.VK_SUCCESS VkResult.VK_SUCCESS
          image_index).1 = VkResult.VK_ERROR_OUT_OF_DATE_KHR ∧
      (queue_present st descendant_images VkResult.VK_SUCCESS VkResult.VK_SUCCESS
          image_index).2.images.get? image_index = Option.some image_status.FREE ∧
      (queue_present st descendant_images VkResult.VK_SUCCESS VkResult.VK_SUCCESS
          image_index).2.pending =
        ring_enqueue st.pending image_index ∧
      (queue_present st descendant_images VkResult.VK_SUCCESS VkResult.VK_SUCCESS
          image_index).2.page_flip_posts = st.page_flip_posts + 1) ∧
    (descendant_started_presenting descendant_images = false →
      (queue_present st descendant_images VkResult.VK_SUCCESS VkResult.VK_SUCCESS
          image_index).1 = VkResult.VK_SUCCESS ∧
      (queue_present st descendant_images VkResult.VK_SUCCESS VkResult.VK_SUCCESS
          image_index).2.images.get? image_index = Option.some image_status.PENDING ∧
      (queue_present st descendant_images VkResult.VK_SUCCESS VkResult.VK_SUCCESS
          image_index).2.pending =
        ring_enqueue st.pending image_index ∧
      (queue_present st descendant_images VkResult.VK_SUCCESS VkResult.VK_SUCCESS
          image_index).2.page_flip_posts = st.page_flip_posts + 1) := by
  have hlt : image_index < st.images.length := by
    by_contra hge
    rw [List.get?_eq_none.mpr (Nat.le_of_not_lt hge)] at hacq
    exact Option.noConfusion hacq
  constructor
  · intro hd
    unfold queue_present
    simp [hd, List.get?_set_eq, hlt]
  · intro hd
    unfold queue_present
    simp [hd, List.get?_set_eq, hlt]

/-- Witness for C3: a two-image swapchain whose image 1 is `ACQUIRED` and a
descendant that has a `PRESENTED` image. -/
theorem queue_present_descendant_takeover_witness :
    (descendant_started_presenting
        (Option.some [image_status.PRESENTED, image_status.FREE]) = true →
      (queue_present
          { images := [image_status.PRESENTED, image_status.ACQUIRED],
            pending := { ring := [0, 0], head := 0, tail := 0, size := 2 },
            page_flip_posts := 0 }
          (Option.some [image_status.PRESENTED, image_status.FREE])
          VkResult.VK_SUCCESS VkResult.VK_SUCCESS 1).1 =
        VkResult.VK_ERROR_OUT_OF_DATE_KHR ∧
      (queue_present
          { images := [image_status.PRESENTED, image_status.ACQUIRED],
            pending := { ring := [0, 0], head := 0, tail := 0, size := 2 },
            page_flip_posts := 0 }
          (Option.some [image_status.PRESENTED, image_status.FREE])
          VkResult.VK_SUCCESS VkResult.VK_SUCCESS 1).2.images.get? 1 =
        Option.some image_status.FREE ∧
      (queue_present
          { images := [image_status.PRESENTED, image_status.ACQUIRED],
            pending := { ring := [0, 0], head := 0, tail := 0, size := 2 },
            page_flip_posts := 0 }
          (Option.some [image_status.PRESENTED, image_status.FREE])
          VkResult.VK_SUCCESS VkResult.VK_SUCCESS 1).2.pending =
        ring_enqueue { ring := [0, 0], head := 0, tail := 0, size := 2 } 1 ∧
      (queue_present
          { images := [image_status.PRESENTED, image_status.ACQUIRED],
            pending := { ring := [0, 0], head := 0, tail := 0, size := 2 },
            page_flip_posts := 0 }
          (Option.some [image_status.PRESENTED, image_status.FREE])
          VkResult.VK_SUCCESS VkResult.VK_SUCCESS 1).2.page_flip_posts = 0 + 1) ∧
    (descendant_started_presenting
        (Option.some [image_status.PRESENTED, image_status.FREE]) = false →
      (queue_present
          { images := [image_status.PRESENTED, image_status.ACQUIRED],
            pending := { ring := [0, 0], head := 0, tail := 0, size := 2 },
            page_flip_posts := 0 }
          (Option.some [image_status.PRESENTED, image_status.FREE])
          VkResult.VK_SUCCESS VkResult.VK_SUCCESS 1).1 = VkResult.VK_SUCCESS ∧
      (queue_present
          { images := [image_status.PRESENTED, image_status.ACQUIRED],
            pending := { ring := [0, 0], head := 0, tail := 0, size := 2 },
            page_flip_posts := 0 }
          (Option.some [image_status.PRESENTED, image_status.FREE])
          VkResult.VK_SUCCESS VkResult.VK_SUCCESS 1).2.images.get? 1 =
        Option.some image_status.PENDING ∧
      (queue_present
          { images := [image_status.PRESENTED, image_status.ACQUIRED],
            pending := { ring := [0, 0], head := 0, tail := 0, size := 2 },
            page_flip_posts := 0 }
          (Option.some [image_status.PRESENTED, image_status.FREE])
          VkResult.VK_SUCCESS VkResult.VK_SUCCESS 1).2.pending =
        ring_enqueue { ring := [0, 0], head := 0, tail := 0, size := 2 } 1 ∧
      (queue_present
          { images := [image_status.PRESENTED, image_status.ACQUIRED],
            pending := { ring := [0, 0], head := 0, tail := 0, size := 2 },
            page_flip_posts := 0 }
          (Option.some [image_status.PRESENTED, image_status.FREE])
          VkResult.VK_SUCCESS VkResult.VK_SUCCESS 1).2.page_flip_posts = 0 + 1) := by
  exact queue_present_descendant_takeover
    { images := [image_status.PRESENTED, image_status.ACQUIRED],
      pending := { ring := [0, 0], head := 0, tail := 0, size := 2 },
      page_flip_posts := 0 }
    (Option.some [image_status.PRESENTED, image_status.FREE]) 1 (by decide)

/- ### `swapchain_base::get_swapchain_images` -/

/-- The `do { ... } while (current_image < *swapchain_image_count)` copy loop
of `get_swapchain_images`.  The body always copies `images[current]` first:
reading past the image array (the outcome when the array index is out of
bounds) is modelled by `Option.none`.  When `current + 1` reaches the image
count the loop returns `SUCCESS`; when the loop condition fails it returns
`INCOMPLETE`.  Returns (result, count written back, handles copied). -/
def copy_image_loop (images : List Nat) (count_inout : Nat) (current : Nat)
    (acc : List Nat) : Option (VkResult × Nat × List Nat) :=
  if h : current < images.length then
    let acc2 := acc ++ [images.get ⟨current, h⟩]
    if current + 1 = images.length then
      Option.some (VkResult.VK_SUCCESS, current + 1, acc2)
    else if current + 1 < count_inout then
      copy_image_loop images count_inout (current + 1) acc2
    else Option.some (VkResult.VK_INCOMPLETE, current + 1, acc2)
  else Option.none
termination_by images.length - current

/-- `swapchain_base::get_swapchain_images`: with a null output array, write
the image count and return `SUCCESS`; otherwise run the do-while copy loop.
Image handles are modelled as `Nat`.  Returns (result, value written back to
`count_inout`, handles copied into the output array). -/
def get_swapchain_images (images : List Nat) (count_inout : Nat)
    (images_out_null : Bool) : Option (VkResult × Nat × List Nat) :=
  if images_out_null then Option.some (VkResult.VK_SUCCESS, images.length, [])
  else copy_image_loop images count_inout 0 []

/-- Taking `k + 1` elements of a drop splits off the element at the drop
position. -/
theorem take_succ_drop (l : List Nat) (n k : Nat) (h : n < l.length) :
    (l.drop n).take (k + 1) = l.get ⟨n, h⟩ :: (l.drop (n + 1)).take k := by
  rw [List.drop_eq_getElem_cons h, List.take_succ_cons, List.get_eq_getElem]

/-- The copy loop copies exactly `min count_inout (images.length)` handles
(provided it starts strictly below both bounds), returns `SUCCESS` exactly
when it reached the end of the image array and `INCOMPLETE` otherwise, and
writes the copy count back. -/
theorem copy_image_loop_spec (images : List Nat) (count_inout : Nat) :
    ∀ current acc, current < images.length → current < count_inout →
      copy_image_loop images count_inout current acc =
        Option.some
          ((if images.length ≤ count_inout then VkResult.VK_SUCCESS
            else VkResult.VK_INCOMPLETE),
           min count_inout images.length,
           acc ++ (images.drop current).take (min count_inout images.length - current)) := by
  intro current acc h1 h2
  rw [copy_image_loop]
  rw [dif_pos h1]
  have htake1 : (images.drop current).take 1 = [images.get ⟨current, h1⟩] := by
    have h0 := take_succ_drop images current 0 h1
    simpa using h0
  by_cases hend : current + 1 = images.length
  · rw [if_pos hend]
    have hle : images.length ≤ count_inout := by omega
    have hmin : min count_inout images.length = images.length := by omega
    have hmc : min count_inout images.length - current = 1 := by omega
    rw [if_pos hle, hmc, htake1, hmin, hend]
  · rw [if_neg hend]
    by_cases hcont : current + 1 < count_inout
    · rw [if_pos hcont]
      have h1n : current + 1 < images.length := by omega
      rw [copy_image_loop_spec images count_inout (current + 1)
        (acc ++ [images.get ⟨current, h1⟩]) h1n hcont]
      have hstep : min count_inout images.length - current =
          (min count_inout images.length - (current + 1)) + 1 := by omega
      rw [hstep, take_succ_drop images current _ h1]
      simp
    · rw [if_neg hcont]
      have hnle : ¬ images.length ≤ count_inout := by omega
      have hmin : min count_inout images.length = current + 1 := by omega
      have hmc : min count_inout images.length - current = 1 := by omega
      rw [if_neg hnle, hmc, htake1, hmin]
termination_by current => images.length - current

/-- Counterexample for C5: with `count_inout = 0` and a non-null output array
on a two-image swapchain, the do-while body runs once before testing the loop
condition, so one handle is copied even though `count_inout` said zero —
"never more than `count_inout`" fails (the `assert(*swapchain_image_count > 0)`
in the source compiles away in release builds). -/
theorem get_swapchain_images_zero_count_copies_one :
    get_swapchain_images [7, 8] 0 false =
      Option.some (VkResult.VK_INCOMPLETE, 1, [7]) ∧ ¬ (1 ≤ 0) := by
  constructor
  · unfold get_swapchain_images
    rw [if_neg (by decide)]
    rw [copy_image_loop]
    norm_num
  · decide

/-- Claim C5 (amended): for every call with a non-empty image array and
`count_inout ≥ 1` (the bound the source asserts): a null output array gets the
image count and `SUCCESS`; otherwise the call copies
`min count_inout image_count` handles (never more), writes that number back,
and returns `SUCCESS` when the full set was copied and `INCOMPLETE` when
fewer were copied. -/
theorem get_swapchain_images_spec (images : List Nat) (count : Nat)
    (hne : images ≠ []) (hc : 1 ≤ count) :
    get_swapchain_images images count true =
      Option.some (VkResult.VK_SUCCESS, images.length, []) ∧
    get_swapchain_images images count false =
      Option.some
        ((if images.length ≤ count then VkResult.VK_SUCCESS else VkResult.VK_INCOMPLETE),
         min count images.length,
         images.take (min count images.length)) := by
  constructor
  · unfold get_swapchain_images
    rw [if_pos rfl]
  · unfold get_swapchain_images
    rw [if_neg (by decide)]
    have h0 : 0 < images.length := List.length_pos.mpr hne
    rw [copy_image_loop_spec images count 0 [] h0 (by omega)]
    simp

/-- Witness for C5 (amended): three images, `count_inout = 2`; two handles are
copied and `INCOMPLETE` is returned, and the null-array query returns the
count 3. -/
theorem get_swapchain_images_spec_witness :
    get_swapchain_images [5, 6, 7] 2 true =
      Option.some (VkResult.VK_SUCCESS, ([5, 6, 7] : List Nat).length, []) ∧
    get_swapchain_images [5, 6, 7] 2 false =
      Option.some
        ((if ([5, 6, 7] : List Nat).length ≤ 2 then VkResult.VK_SUCCESS
          else VkResult.VK_INCOMPLETE),
         min 2 ([5, 6, 7] : List Nat).length,
         ([5, 6, 7] : List Nat).take (min 2 ([5, 6, 7] : List Nat).length)) := by
  exact get_swapchain_images_spec [5, 6, 7] 2 (by decide) (by decide)

/- ### `swapchain_base::wait_for_pending_buffers` -/

/-- The `for` loop in `wait_for_pending_buffers` that counts images in
`ACQUIRED`. -/
def count_acquired (images : List image_status) : Nat :=
  images.foldl (fun n s => if s = image_status.ACQUIRED then n + 1 else n) 0

/-- The `while (wait > 0)` loop of `wait_for_pending_buffers`: each iteration
performs one blocking wait on the free-image semaphore and decrements `wait`.
Returns the number of waits performed; `wait` is a C `int`, hence `Int`. -/
def drain_loop (wait : Int) : Nat :=
  if 0 < wait then drain_loop (wait - 1) + 1 else 0
termination_by wait.toNat
decreasing_by
  simp_wf
  omega

/-- `swapchain_base::wait_for_pending_buffers`: compute
`wait = image_count - acquired_count - 1` (as a signed int) and block that
many times on the free-image semaphore.  The function returns the number of
blocking waits performed by the embedded loop. -/
def wait_for_pending_buffers (images : List image_status) : Nat :=
  drain_loop ((images.length : Int) - (count_acquired images : Int) - 1)

theorem drain_loop_eq_max (w : Int) : (drain_loop w : Int) = max w 0 := by
  rw [drain_loop]
  by_cases h : 0 < w
  · rw [if_pos h]
    have ih := drain_loop_eq_max (w - 1)
    push_cast
    push_cast at ih
    omega
  · rw [if_neg h]
    simp
    omega
termination_by w.toNat
decreasing_by
  simp_wf
  omega

/-- Claim C6: `wait_for_pending_buffers` computes
`wait = image_count - acquired_count - 1` and performs exactly `max wait 0`
blocking waits on the free-image semaphore. -/
theorem wait_for_pending_buffers_wait_count (images : List image_status) :
    (wait_for_pending_buffers images : Int) =
      max ((images.length : Int) - (count_acquired images : Int) - 1) 0 := by
  unfold wait_for_pending_buffers
  exact drain_loop_eq_max _

/- ### `swapchain_base::init` and its dead `res` check -/

/-- The external-call results that `swapchain_base::init` observes, in source
order: the requested present mode (`VkPresentModeKHR` as an integer, FIFO = 2
and FIFO-relaxed = 3 being the accepted values), the image-array allocation,
`init_platform`, the ring allocation, the free-image semaphore init, the
per-image `create_image` results, `SetDeviceLoaderData`, the page-flip
semaphore init, and the `sem_init` return value for the start-present
semaphore. -/
structure init_env where
  present_mode : Nat
  num_images : Nat
  images_alloc_ok : Bool
  platform_res : VkResult
  ring_alloc_ok : Bool
  free_sem_res : VkResult
  create_image_res : Nat → VkResult
  set_loader_res : VkResult
  page_flip_sem_res : VkResult
  sem_init_ret : Int

/-- The accepted present modes, `present_modes` in `swapchain_base::init`
(Vulkan values: FIFO = 2, FIFO-relaxed = 3). -/
def present_modes : List Nat := [2, 3]

/-- The `create_image` loop of `init`: create each image slot in index order
and abort with the first failing result. -/
def create_images_loop (f : Nat → VkResult) : Nat → Nat → Option VkResult
  | 0, _ => Option.none
  | remaining + 1, i =>
    if f i ≠ VkResult.VK_SUCCESS then Option.some (f i)
    else create_images_loop f remaining (i + 1)

/-- `swapchain_base::init` from `swapchain_base.cpp`, as a function of the
external-call results.  `res_garbage` is the indeterminate initial value of
the local `int res`, which the source reads in the check that precedes the
first assignment to `res` (`if (res != 0) return VK_ERROR_OUT_OF_HOST_MEMORY`
before `res = sem_init(...)`). -/
def swapchain_init (e : init_env) (res_garbage : Int) : VkResult :=
  if present_modes.any (fun m => m == e.present_mode) = false then
    VkResult.VK_ERROR_INITIALIZATION_FAILED
  else if e.images_alloc_ok = false then VkResult.VK_ERROR_OUT_OF_HOST_MEMORY
  else if e.platform_res ≠ VkResult.VK_SUCCESS then e.platform_res
  else if e.ring_alloc_ok = false then VkResult.VK_ERROR_OUT_OF_HOST_MEMORY
  else if e.free_sem_res ≠ VkResult.VK_SUCCESS then e.free_sem_res
  else
    match create_images_loop e.create_image_res e.num_images 0 with
    | Option.some r => r
    | Option.none =>
      if e.set_loader_res ≠ VkResult.VK_SUCCESS then e.set_loader_res
      else if e.page_flip_sem_res ≠ VkResult.VK_SUCCESS then e.page_flip_sem_res
      else if res_garbage ≠ 0 then VkResult.VK_ERROR_OUT_OF_HOST_MEMORY
      else if e.sem_init_ret ≠ 0 then VkResult.VK_ERROR_OUT_OF_HOST_MEMORY
      else VkResult.VK_SUCCESS

/-- Modelled from the spec: `init` with the dead `res` check "treated as a
no-op" ("do not preserve it"), i.e. the same sequence of steps without the
branch that reads the uninitialised `res`. -/
def swapchain_init_spec (e : init_env) : VkResult :=
  if present_modes.any (fun m => m == e.present_mode) = false then
    VkResult.VK_ERROR_INITIALIZATION_FAILED
  else if e.images_alloc_ok = false then VkResult.VK_ERROR_OUT_OF_HOST_MEMORY
  else if e.platform_res ≠ VkResult.VK_SUCCESS then e.platform_res
  else if e.ring_alloc_ok = false then VkResult.VK_ERROR_OUT_OF_HOST_MEMORY
  else if e.free_sem_res ≠ VkResult.VK_SUCCESS then e.free_sem_res
  else
    match create_images_loop e.create_image_res e.num_images 0 with
    | Option.some r => r
    | Option.none =>
      if e.set_loader_res ≠ VkResult.VK_SUCCESS then e.set_loader_res
      else if e.page_flip_sem_res ≠ VkResult.VK_SUCCESS then e.page_flip_sem_res
      else if e.sem_init_ret ≠ 0 then VkResult.VK_ERROR_OUT_OF_HOST_MEMORY
      else VkResult.VK_SUCCESS

/-- Counterexample for C9: the check of the uninitialised `res` is not dead
for every possible value of the indeterminate local: with every external call
succeeding and the indeterminate value `1`, `init` returns
`OUT_OF_HOST_MEMORY` where the spec's check-free `init` returns `SUCCESS`, so
`init`'s result does depend on that branch. -/
theorem swapchain_init_dead_check_reachable :
    swapchain_init
        { present_mode := 2, num_images := 3, images_alloc_ok := true,
          platform_res := VkResult.VK_SUCCESS, ring_alloc_ok := true,
          free_sem_res := VkResult.VK_SUCCESS,
          create_image_res := fun _ => VkResult.VK_SUCCESS,
          set_loader_res := VkResult.VK_SUCCESS,
          page_flip_sem_res := VkResult.VK_SUCCESS, sem_init_ret := 0 } 1 =
      VkResult.VK_ERROR_OUT_OF_HOST_MEMORY ∧
    swapchain_init_spec
        { present_mode := 2, num_images := 3, images_alloc_ok := true,
          platform_res := VkResult.VK_SUCCESS, ring_alloc_ok := true,
          free_sem_res := VkResult.VK_SUCCESS,
          create_image_res := fun _ => VkResult.VK_SUCCESS,
          set_loader_res := VkResult.VK_SUCCESS,
          page_flip_sem_res := VkResult.VK_SUCCESS, sem_init_ret := 0 } =
      VkResult.VK_SUCCESS := by
  constructor
  · rfl
  · rfl

/-- Claim C9 (amended): the `res` check before `sem_init` reads `res` before
any assignment, so its behaviour is fixed by the indeterminate initial value
alone; the check is a no-op exactly when that value is zero: with zero,
`init` computes the same result as the spec's check-free `init` on every
input. -/
theorem swapchain_init_garbage_zero_matches_spec (e : init_env) :
    swapchain_init e 0 = swapchain_init_spec e := by
  unfold swapchain_init swapchain_init_spec
  simp
